import Mathlib

/-!
# Verification of the enrollment and matriculation-numbering subsystem

Shallow embedding of the student-directory backend (`src/main.rs`).  The
durable state is the relational store's `students` table, modelled as a
`List Student`.  Each handler becomes a pure function over that state:
read-only handlers (`list_students`, `get_student_by_matric`, `login`)
return only a result, mutating handlers (`create_student`,
`assign_matric_number`) return the result together with the resulting
store (the store is unchanged on the failure paths, matching SQL
semantics where a constraint-violating INSERT or a zero-row UPDATE
leaves the table untouched).

The bcrypt collaborator (`bcrypt::hash` / `bcrypt::verify`) is external
library code, so the operations are parametrised by a `Hasher` record;
theorems that depend on bcrypt's contract (`verify(p, hash(p)) = true`)
take that contract as a hypothesis.

Machine integers: the only arithmetic is the `COUNT(*)` of matriculated
students (an `i64` in the source, always a small non-negative row
count), modelled as `Nat`.
-/

deriving instance DecidableEq for Except

namespace School

/-- The `students` row type (struct `Student` in `src/main.rs`).  The
`id` column is a `Uuid` generated by the store; here it is a `Nat`
(its value is never exposed and never inspected, only its presence in
the row matters). -/
structure Student where
  id : Nat
  username : String
  password : String
  name : String
  matric_number : Option String
deriving DecidableEq

/-- Public projection of a student (struct `StudentResponse`): only
`username`, `name` and the optional `matric_number`. -/
structure StudentResponse where
  username : String
  name : String
  matric_number : Option String
deriving DecidableEq

/-- `Student::to_response` from `src/main.rs`. -/
def Student.to_response (s : Student) : StudentResponse :=
  { username := s.username, name := s.name, matric_number := s.matric_number }

/-- Request body of `POST /students` (struct `CreateStudentRequest`). -/
structure CreateStudentRequest where
  username : String
  password : String
  name : String
deriving DecidableEq

/-- Request body of `POST /login` (struct `LoginRequest`). -/
structure LoginRequest where
  username : String
  password : String
deriving DecidableEq

/-- The handler error enum `ApiError` from `src/main.rs`. -/
inductive ApiError
  | NotFound
  | Unauthorized
  | Conflict
  | BadRequest (msg : String)
  | InternalServerError
deriving DecidableEq

/-- The shape of a `sqlx::Error` as far as `create_student`'s error
mapping inspects it: a database error carrying an optional violated
constraint name, or any other driver fault. -/
inductive SqlxError
  | Database (constraint : Option String)
  | Other
deriving DecidableEq

/-- The `map_err` closure of the INSERT in `create_student`
(`src/main.rs` lines 106-111): a database error whose constraint is
`students_username_key` becomes `Conflict`; everything else becomes
`InternalServerError`. -/
def create_student_err_map (e : SqlxError) : ApiError :=
  match e with
  | SqlxError.Database c =>
      if c = some "students_username_key" then ApiError.Conflict
      else ApiError.InternalServerError
  | SqlxError.Other => ApiError.InternalServerError

/-- The bcrypt collaborator: `hashFn` models `bcrypt::hash` (which can
fail, carrying a displayable error), `verifyFn` models `bcrypt::verify`
(which can fail on a malformed digest). -/
structure Hasher where
  hashFn : String → Except String String
  verifyFn : String → String → Except Unit Bool

/-! ## Decimal rendering of the matriculation sequence number

`format!("MAT{:05}", n)` renders `n` in decimal and left-pads the
digits with `'0'` to a minimum width of 5.  The digit list is produced
most-significant first by repeated division, exactly as the standard
decimal rendering; the fuel argument only makes the recursion
structural. -/

/-- The ASCII digit character for `d < 10`. -/
def digitChar (d : Nat) : Char := Char.ofNat (48 + d)

/-- Decimal digit characters of `n`, most significant first; `fuel`
bounds the recursion depth (any `fuel > n` is enough). -/
def natDigitsAux : Nat → Nat → List Char
  | 0, _ => []
  | fuel + 1, n =>
      if n < 10 then [digitChar n]
      else natDigitsAux fuel (n / 10) ++ [digitChar (n % 10)]

/-- Decimal digit characters of `n`, most significant first. -/
def natToDigitChars (n : Nat) : List Char := natDigitsAux (n + 1) n

/-- `format!("MAT{:05}", n)` from `assign_matric_number`
(`src/main.rs` line 124): the `MAT` prefix followed by the decimal
digits of `n`, zero-padded on the left to a minimum width of 5. -/
def formatMatric (n : Nat) : String :=
  "MAT" ++ String.mk (List.replicate (5 - (natToDigitChars n).length) '0' ++ natToDigitChars n)

/-- Reads a decimal digit string as a number, starting from
accumulator `a`. -/
def parseDigitsFrom (a : Nat) (l : List Char) : Nat :=
  l.foldl (fun a c => 10 * a + (c.toNat - 48)) a

/-- The numeric part of a matriculation token: the decimal value of
everything after the 3-character `MAT` prefix. -/
def parseMatric (s : String) : Nat := parseDigitsFrom 0 (s.data.drop 3)

/-! ## The handlers -/

/-- `POST /students` (`create_student`, `src/main.rs` lines 86-114).
First the password is hashed; a hashing failure is mapped to
`BadRequest("Password hashing failed: {e}")` and nothing is inserted.
Then the INSERT runs; the store enforces the `students_username_key`
unique constraint atomically, which in this sequential model is the
membership test below, and the resulting database error goes through
`create_student_err_map` exactly as in the source.  A fresh row gets
`matric_number = NULL` (the INSERT does not set it) and a
store-generated id. -/
def create_student (H : Hasher) (req : CreateStudentRequest) (st : List Student) :
    Except ApiError StudentResponse × List Student :=
  match H.hashFn req.password with
  | Except.error e =>
      (Except.error (ApiError.BadRequest ("Password hashing failed: " ++ e)), st)
  | Except.ok hashed =>
      if st.any (fun s => s.username == req.username) then
        (Except.error (create_student_err_map (SqlxError.Database (some "students_username_key"))), st)
      else
        let s : Student :=
          { id := st.length, username := req.username, password := hashed,
            name := req.name, matric_number := none }
        (Except.ok s.to_response, st ++ [s])

/-- `SELECT COUNT(*) FROM students WHERE matric_number IS NOT NULL`
(`src/main.rs` lines 120-122); the source's `count.unwrap_or(0)` is
implicit because a `COUNT(*)` is never NULL. -/
def countMatriculated (st : List Student) : Nat :=
  st.countP (fun s => s.matric_number.isSome)

/-- The WHERE clause of the conditional UPDATE:
`username = $2 AND matric_number IS NULL`. -/
def matchFree (u : String) (s : Student) : Bool :=
  s.username == u && s.matric_number.isNone

/-- The effect of the UPDATE on a single row. -/
def setMatric (u token : String) (s : Student) : Student :=
  if matchFree u s then { s with matric_number := some token } else s

/-- The conditional UPDATE of `assign_matric_number` (`src/main.rs`
lines 126-142): set `matric_number = token` on every row matching
`username = u AND matric_number IS NULL`; `RETURNING` with
`fetch_optional` yields the first updated row, and a zero-row update
is the `BadRequest("Student not found or already has matric number")`
failure, leaving the store untouched. -/
def condUpdate (u token : String) (st : List Student) :
    Except ApiError StudentResponse × List Student :=
  match st.find? (matchFree u) with
  | none =>
      (Except.error (ApiError.BadRequest "Student not found or already has matric number"), st)
  | some s =>
      (Except.ok ({ s with matric_number := some token }).to_response,
       st.map (setMatric u token))

/-- `POST /students/{username}/matric` (`assign_matric_number`,
`src/main.rs` lines 116-145): count the matriculated students, format
`MAT{:05}` of count + 1, then run the conditional UPDATE.  The count
query and the UPDATE are two separate store round-trips in the source;
`condUpdate` is split out so that interleavings of concurrent requests
can be expressed by sequencing these two steps explicitly. -/
def assign_matric_number (u : String) (st : List Student) :
    Except ApiError StudentResponse × List Student :=
  condUpdate u (formatMatric (countMatriculated st + 1)) st

/-- `GET /students` (`list_students`, `src/main.rs` lines 147-162). -/
def list_students (st : List Student) : Except ApiError (List StudentResponse) :=
  Except.ok (st.map Student.to_response)

/-- `GET /students/matric/{matric_number}` (`get_student_by_matric`,
`src/main.rs` lines 164-183). -/
def get_student_by_matric (m : String) (st : List Student) :
    Except ApiError StudentResponse :=
  match st.find? (fun s => s.matric_number == some m) with
  | none => Except.error ApiError.NotFound
  | some s => Except.ok s.to_response

/-- `POST /login` (`login`, `src/main.rs` lines 185-207): look up by
username (absent row is `Unauthorized`), then `bcrypt::verify`; a
verification error is mapped to `Unauthorized` by the `map_err`, and a
`false` verdict returns `Unauthorized` as well. -/
def login (H : Hasher) (req : LoginRequest) (st : List Student) :
    Except ApiError StudentResponse :=
  match st.find? (fun s => s.username == req.username) with
  | none => Except.error ApiError.Unauthorized
  | some s =>
      match H.verifyFn req.password s.password with
      | Except.error _ => Except.error ApiError.Unauthorized
      | Except.ok b =>
          if b then Except.ok s.to_response else Except.error ApiError.Unauthorized

/-- A run of sequential matriculation assignments: each request
completes before the next begins; the run stops at the first failure
and otherwise collects the token of each response. -/
def runAssigns : List String → List Student → Except ApiError (List String) × List Student
  | [], st => (Except.ok [], st)
  | u :: us, st =>
      match assign_matric_number u st with
      | (Except.error e, st') => (Except.error e, st')
      | (Except.ok r, st') =>
          match runAssigns us st' with
          | (Except.error e, st'') => (Except.error e, st'')
          | (Except.ok ts, st'') => (Except.ok (r.matric_number.getD "" :: ts), st'')

/-- A concrete stand-in for the bcrypt collaborator, used to
instantiate hypotheses at concrete inputs: it satisfies
`verifyFn p (hashFn p) = ok true`. -/
def exampleHasher : Hasher :=
  { hashFn := fun p => Except.ok ("bc$" ++ p),
    verifyFn := fun p d => Except.ok (d == "bc$" ++ p) }

/-! ## Lemmas about the decimal rendering -/

/-- The digit list does not depend on the fuel, provided there is
enough of it. -/
theorem natDigitsAux_irrel :
    ∀ f₁ f₂ n, n < f₁ → n < f₂ → natDigitsAux f₁ n = natDigitsAux f₂ n := by
  intro f₁
  induction f₁ with
  | zero => intro f₂ n h₁ _; omega
  | succ f ih =>
    intro f₂ n h₁ h₂
    cases f₂ with
    | zero => omega
    | succ g =>
      by_cases h10 : n < 10
      · simp [natDigitsAux, h10]
      · have hdiv : n / 10 < n := Nat.div_lt_self (by omega) (by omega)
        simp only [natDigitsAux, h10, if_false]
        rw [ih g (n / 10) (by omega) (by omega)]

/-- Unfolding equation for `natToDigitChars`. -/
theorem natToDigitChars_unfold (n : Nat) :
    natToDigitChars n =
      if n < 10 then [digitChar n]
      else natToDigitChars (n / 10) ++ [digitChar (n % 10)] := by
  by_cases h10 : n < 10
  · simp [natToDigitChars, natDigitsAux, h10]
  · have hdiv : n / 10 < n := Nat.div_lt_self (by omega) (by omega)
    simp only [natToDigitChars, natDigitsAux, h10, if_false]
    rw [natDigitsAux_irrel n (n / 10 + 1) (n / 10) (by omega) (by omega)]
    rfl

/-- The ASCII code of a decimal digit character. -/
theorem digitChar_toNat (d : Nat) (h : d < 10) : (digitChar d).toNat = 48 + d := by
  interval_cases d <;> decide

/-- Digit lists are never empty. -/
theorem natToDigitChars_ne_nil (n : Nat) : natToDigitChars n ≠ [] := by
  rw [natToDigitChars_unfold]
  split <;> simp

/-- Folding the decimal-parsing step over the digits of `n` starting
from accumulator `a` yields `a` shifted past the digits, plus `n`. -/
theorem parseDigitsFrom_digits (n : Nat) :
    ∀ a, parseDigitsFrom a (natToDigitChars n) =
      a * 10 ^ (natToDigitChars n).length + n := by
  induction n using Nat.strong_induction_on with
  | _ n ih =>
    intro a
    rw [natToDigitChars_unfold]
    by_cases h10 : n < 10
    · simp only [h10, if_true, parseDigitsFrom, List.foldl_cons, List.foldl_nil,
        List.length_cons, List.length_nil]
      rw [digitChar_toNat n h10]
      ring_nf
      omega
    · have hdiv : n / 10 < n := Nat.div_lt_self (by omega) (by omega)
      simp only [h10, if_false, parseDigitsFrom, List.foldl_append,
        List.foldl_cons, List.foldl_nil, List.length_append, List.length_cons,
        List.length_nil]
      have hmod : n % 10 < 10 := Nat.mod_lt _ (by omega)
      rw [digitChar_toNat (n % 10) hmod]
      have hrec := ih (n / 10) hdiv a
      simp only [parseDigitsFrom] at hrec
      rw [hrec]
      have : 10 * (a * 10 ^ (natToDigitChars (n / 10)).length + n / 10) + (48 + n % 10 - 48)
          = a * 10 ^ ((natToDigitChars (n / 10)).length + (0 + 1)) + (10 * (n / 10) + n % 10) := by
        ring_nf
        omega
      rw [this, Nat.div_add_mod]

/-- Leading zero characters do not change a parse started at 0. -/
theorem parseDigitsFrom_replicate_zero (k : Nat) (l : List Char) :
    parseDigitsFrom 0 (List.replicate k '0' ++ l) = parseDigitsFrom 0 l := by
  induction k with
  | zero => simp
  | succ m ih =>
    simp only [List.replicate_succ, List.cons_append, parseDigitsFrom,
      List.foldl_cons] at *
    have : 10 * 0 + ('0'.toNat - 48) = 0 := by decide
    rw [this, ih]

/-- Parsing inverts the token format: the numeric part of
`formatMatric n` is `n`. -/
theorem parseMatric_formatMatric (n : Nat) : parseMatric (formatMatric n) = n := by
  have hdata : (formatMatric n).data
      = 'M' :: 'A' :: 'T' ::
        (List.replicate (5 - (natToDigitChars n).length) '0' ++ natToDigitChars n) := by
    simp [formatMatric, String.data_append]
  simp only [parseMatric, hdata, List.drop_succ_cons, List.drop_zero]
  rw [parseDigitsFrom_replicate_zero, parseDigitsFrom_digits]
  simp

/-- A number below `10 ^ k` has at most `k` decimal digits (`k ≥ 1`). -/
theorem natToDigitChars_length_le :
    ∀ n k, 1 ≤ k → n < 10 ^ k → (natToDigitChars n).length ≤ k := by
  intro n
  induction n using Nat.strong_induction_on with
  | _ n ih =>
    intro k hk hn
    rw [natToDigitChars_unfold]
    by_cases h10 : n < 10
    · simp only [h10, if_true, List.length_cons, List.length_nil]
      omega
    · have hdiv : n / 10 < n := Nat.div_lt_self (by omega) (by omega)
      have hk2 : 2 ≤ k := by
        by_contra hcon
        have hk1 : k = 1 := by omega
        subst hk1
        simp only [pow_one] at hn
        omega
      have hpow : 10 ^ (k - 1) * 10 = 10 ^ k := by
        have hsub : k - 1 + 1 = k := by omega
        calc 10 ^ (k - 1) * 10 = 10 ^ (k - 1 + 1) := by ring
        _ = 10 ^ k := by rw [hsub]
      have hlt : n / 10 < 10 ^ (k - 1) := by
        rw [Nat.div_lt_iff_lt_mul (by omega)]
        omega
      have := ih (n / 10) hdiv (k - 1) (by omega) hlt
      simp only [h10, if_false, List.length_append, List.length_cons, List.length_nil]
      omega

/-- For `n < 100000` the token is exactly the 3-character prefix plus
5 digit characters: length 8. -/
theorem formatMatric_length (n : Nat) (h : n < 100000) :
    (formatMatric n).length = 8 := by
  have hle : (natToDigitChars n).length ≤ 5 :=
    natToDigitChars_length_le n 5 (by omega) (by omega)
  show ((formatMatric n).data).length = 8
  have hdata : (formatMatric n).data
      = 'M' :: 'A' :: 'T' ::
        (List.replicate (5 - (natToDigitChars n).length) '0' ++ natToDigitChars n) := by
    simp [formatMatric, String.data_append]
  rw [hdata]
  simp only [List.length_cons, List.length_append, List.length_replicate]
  omega

/-! ## Lemmas about the store operations -/

/-- A row matched by the UPDATE's WHERE clause is unmatriculated. -/
theorem matchFree_isNone {u : String} {s : Student}
    (h : matchFree u s = true) : s.matric_number = none := by
  have := (Bool.and_eq_true _ _).mp h
  exact Option.isNone_iff_eq_none.mp this.2

/-- The conditional UPDATE raises the matriculated count by exactly
the number of rows its WHERE clause matches. -/
theorem countMatriculated_map_setMatric (u token : String) (st : List Student) :
    countMatriculated (st.map (setMatric u token))
      = countMatriculated st + st.countP (matchFree u) := by
  induction st with
  | nil => rfl
  | cons a t ih =>
    simp only [List.map_cons, countMatriculated, List.countP_cons]
    simp only [countMatriculated] at ih
    rw [ih]
    by_cases hm : matchFree u a = true
    · have hnone : a.matric_number = none := matchFree_isNone hm
      have hset : setMatric u token a = { a with matric_number := some token } := by
        simp [setMatric, hm]
      rw [hset]
      simp only [hnone, Option.isSome_some, Option.isSome_none, hm,
        Bool.false_eq_true, reduceIte]
      omega
    · have hset : setMatric u token a = a := by simp [setMatric, hm]
      rw [hset, if_neg hm]
      omega

/-- A successful matriculation assignment returns the freshly computed
token in the response and strictly increases the matriculated count. -/
theorem assign_ok_facts {u : String} {st st' : List Student} {r : StudentResponse}
    (h : assign_matric_number u st = (Except.ok r, st')) :
    r.matric_number = some (formatMatric (countMatriculated st + 1))
      ∧ countMatriculated st < countMatriculated st' := by
  unfold assign_matric_number condUpdate at h
  cases hf : st.find? (matchFree u) with
  | none => rw [hf] at h; simp at h
  | some s =>
    rw [hf] at h
    have hmem : s ∈ st := List.mem_of_find?_eq_some hf
    have hps : matchFree u s = true := List.find?_some hf
    simp only [Prod.mk.injEq, Except.ok.injEq] at h
    obtain ⟨hr1, hr2⟩ := h
    constructor
    · rw [← hr1]; rfl
    · rw [← hr2, countMatriculated_map_setMatric]
      have : 0 < st.countP (matchFree u) :=
        List.countP_pos_iff.mpr ⟨s, hmem, hps⟩
      omega

/-- Over a sequential run that fully succeeds, the numeric parts of
the collected tokens strictly increase, every token's numeric part
exceeds the starting matriculated count, and the count never
decreases. -/
theorem runAssigns_facts :
    ∀ us (st : List Student) ts st', runAssigns us st = (Except.ok ts, st') →
      List.Pairwise (fun a b => parseMatric a < parseMatric b) ts
      ∧ (∀ t ∈ ts, countMatriculated st < parseMatric t)
      ∧ countMatriculated st ≤ countMatriculated st' := by
  intro us
  induction us with
  | nil =>
    intro st ts st' h
    simp only [runAssigns, Prod.mk.injEq, Except.ok.injEq] at h
    obtain ⟨h1, h2⟩ := h
    subst h1; subst h2
    exact ⟨List.Pairwise.nil, by simp, le_refl _⟩
  | cons u us ih =>
    intro st ts st' h
    unfold runAssigns at h
    cases ha : assign_matric_number u st with
    | mk res st1 =>
      rw [ha] at h
      cases res with
      | error e => simp at h
      | ok r =>
        dsimp only at h
        cases hrun : runAssigns us st1 with
        | mk res2 st2 =>
          rw [hrun] at h
          cases res2 with
          | error e => simp at h
          | ok ts2 =>
            simp only [Prod.mk.injEq, Except.ok.injEq] at h
            obtain ⟨hts, hst⟩ := h
            subst hts; subst hst
            obtain ⟨hmat, hcount⟩ := assign_ok_facts ha
            obtain ⟨ihp, ihmem, ihle⟩ := ih st1 ts2 st2 hrun
            have hparse : parseMatric (r.matric_number.getD "")
                = countMatriculated st + 1 := by
              rw [hmat]
              exact parseMatric_formatMatric _
            refine ⟨?_, ?_, ?_⟩
            · refine List.Pairwise.cons ?_ ihp
              intro t ht
              have h1 := ihmem t ht
              rw [hparse]
              omega
            · intro t ht
              rcases List.mem_cons.mp ht with h1 | h1
              · rw [h1, hparse]; omega
              · have := ihmem t h1
                omega
            · omega

/-- `find?` skips a prefix in which nothing matches. -/
theorem find?_append_right {α : Type} (p : α → Bool) (l1 l2 : List α)
    (h : l1.find? p = none) : (l1 ++ l2).find? p = l2.find? p := by
  induction l1 with
  | nil => simp
  | cons a t ih =>
    rw [List.cons_append]
    by_cases hpa : p a = true
    · rw [List.find?_cons_of_pos _ hpa] at h
      cases h
    · rw [List.find?_cons_of_neg _ hpa] at h
      rw [List.find?_cons_of_neg _ hpa]
      exact ih h

/-- The WHERE clause as a proposition. -/
theorem matchFree_iff (u : String) (s : Student) :
    matchFree u s = true ↔ s.username = u ∧ s.matric_number = none := by
  simp [matchFree, Option.isNone_iff_eq_none]

/-! ## The claims -/

/-- Claim C1: in a store with exactly `N` matriculated students, a
successful matriculation assignment returns the token
`MAT` ++ (`N + 1` zero-padded to a minimum of 5 digits): the numeric
part of the token is exactly `N + 1`, and while `N + 1` fits in 5
digits the token has the fixed width 3 + 5 = 8. -/
theorem C1_assign_token_formula (u : String) (st st' : List Student)
    (r : StudentResponse) (N : Nat)
    (hN : countMatriculated st = N)
    (h : assign_matric_number u st = (Except.ok r, st')) :
    r.matric_number = some (formatMatric (N + 1))
    ∧ parseMatric (formatMatric (N + 1)) = N + 1
    ∧ (N + 1 < 100000 → (formatMatric (N + 1)).length = 8) := by
  subst hN
  exact ⟨(assign_ok_facts h).1, parseMatric_formatMatric _,
    fun hb => formatMatric_length _ hb⟩

/-- Witness for C1: with zero matriculated students the assigned token
is `MAT00001`, and with three it is `MAT00004`. -/
theorem C1_assign_token_formula_witness :
    countMatriculated [⟨0, "alice", "h", "Alice", none⟩] = 0
    ∧ assign_matric_number "alice" [⟨0, "alice", "h", "Alice", none⟩]
        = (Except.ok ⟨"alice", "Alice", some "MAT00001"⟩,
           [⟨0, "alice", "h", "Alice", some "MAT00001"⟩])
    ∧ (⟨"alice", "Alice", some "MAT00001"⟩ : StudentResponse).matric_number
        = some (formatMatric (0 + 1))
    ∧ countMatriculated
        [⟨0, "ada", "h", "Ada", some "MAT00001"⟩, ⟨1, "bob", "h", "Bob", some "MAT00002"⟩,
         ⟨2, "cyd", "h", "Cyd", some "MAT00003"⟩, ⟨3, "alice", "h", "Alice", none⟩] = 3
    ∧ assign_matric_number "alice"
        [⟨0, "ada", "h", "Ada", some "MAT00001"⟩, ⟨1, "bob", "h", "Bob", some "MAT00002"⟩,
         ⟨2, "cyd", "h", "Cyd", some "MAT00003"⟩, ⟨3, "alice", "h", "Alice", none⟩]
        = (Except.ok ⟨"alice", "Alice", some "MAT00004"⟩,
           [⟨0, "ada", "h", "Ada", some "MAT00001"⟩, ⟨1, "bob", "h", "Bob", some "MAT00002"⟩,
            ⟨2, "cyd", "h", "Cyd", some "MAT00003"⟩, ⟨3, "alice", "h", "Alice", some "MAT00004"⟩])
    ∧ (⟨"alice", "Alice", some "MAT00004"⟩ : StudentResponse).matric_number
        = some (formatMatric (3 + 1)) := by
  refine ⟨by decide, by decide, ?_, by decide, by decide, ?_⟩
  · exact (C1_assign_token_formula "alice" [⟨0, "alice", "h", "Alice", none⟩]
      [⟨0, "alice", "h", "Alice", some "MAT00001"⟩]
      ⟨"alice", "Alice", some "MAT00001"⟩ 0 (by decide) (by decide)).1
  · exact (C1_assign_token_formula "alice"
      [⟨0, "ada", "h", "Ada", some "MAT00001"⟩, ⟨1, "bob", "h", "Bob", some "MAT00002"⟩,
       ⟨2, "cyd", "h", "Cyd", some "MAT00003"⟩, ⟨3, "alice", "h", "Alice", none⟩]
      [⟨0, "ada", "h", "Ada", some "MAT00001"⟩, ⟨1, "bob", "h", "Bob", some "MAT00002"⟩,
       ⟨2, "cyd", "h", "Cyd", some "MAT00003"⟩, ⟨3, "alice", "h", "Alice", some "MAT00004"⟩]
      ⟨"alice", "Alice", some "MAT00004"⟩ 3 (by decide) (by decide)).1

/-- Claim C2: matriculation assignment succeeds exactly when a record
with the requested username exists and is unmatriculated; in every
other case it fails, with one and the same error value
(`BadRequest "Student not found or already has matric number"`, the
code's rendering of the spec's `AssignmentConflict`) for both the
missing-student and the already-matriculated cause, and the store is
left unchanged. -/
theorem C2_assign_conflict (u : String) (st : List Student) :
    ((∃ s ∈ st, s.username = u ∧ s.matric_number = none)
        ↔ ∃ r st', assign_matric_number u st = (Except.ok r, st'))
    ∧ ((¬ ∃ s ∈ st, s.username = u ∧ s.matric_number = none) →
        assign_matric_number u st
          = (Except.error (ApiError.BadRequest "Student not found or already has matric number"),
             st)) := by
  constructor
  · constructor
    · rintro ⟨s, hs, h1, h2⟩
      have hex : ∃ x ∈ st, matchFree u x = true :=
        ⟨s, hs, (matchFree_iff u s).mpr ⟨h1, h2⟩⟩
      have hsome := List.find?_isSome.mpr hex
      cases hf : st.find? (matchFree u) with
      | none => rw [hf] at hsome; cases hsome
      | some s' =>
        exact ⟨({ s' with matric_number := some (formatMatric (countMatriculated st + 1)) }).to_response,
          st.map (setMatric u (formatMatric (countMatriculated st + 1))),
          by unfold assign_matric_number condUpdate; rw [hf]⟩
    · rintro ⟨r, st', h⟩
      unfold assign_matric_number condUpdate at h
      cases hf : st.find? (matchFree u) with
      | none => rw [hf] at h; cases h
      | some s' =>
        exact ⟨s', List.mem_of_find?_eq_some hf,
          (matchFree_iff u s').mp (List.find?_some hf)⟩
  · intro hne
    unfold assign_matric_number condUpdate
    cases hf : st.find? (matchFree u) with
    | none => rfl
    | some s' =>
      exact absurd ⟨s', List.mem_of_find?_eq_some hf,
        (matchFree_iff u s').mp (List.find?_some hf)⟩ hne

/-- Witness for C2: on a store holding only an unmatriculated
`alice`, assignment to `alice` succeeds, assignment to the absent
`bob` fails with the conflict error, and on a store holding only a
matriculated `alice`, assignment to `alice` fails with the very same
error value. -/
theorem C2_assign_conflict_witness :
    (∃ r st', assign_matric_number "alice" [⟨0, "alice", "h", "Alice", none⟩]
        = (Except.ok r, st'))
    ∧ assign_matric_number "bob" [⟨0, "alice", "h", "Alice", none⟩]
        = (Except.error (ApiError.BadRequest "Student not found or already has matric number"),
           [⟨0, "alice", "h", "Alice", none⟩])
    ∧ assign_matric_number "alice" [⟨0, "alice", "h", "Alice", some "MAT00001"⟩]
        = (Except.error (ApiError.BadRequest "Student not found or already has matric number"),
           [⟨0, "alice", "h", "Alice", some "MAT00001"⟩]) := by
  refine ⟨(C2_assign_conflict "alice" _).1.mp
      ⟨⟨0, "alice", "h", "Alice", none⟩, by decide, rfl, rfl⟩,
    (C2_assign_conflict "bob" _).2 (by decide),
    (C2_assign_conflict "alice" _).2 (by decide)⟩

/-- Claim C3: a matric number, once present on a record, is never
changed or cleared by any operation.  The two mutating operations
keep the record (with its matric number) in the resulting store
unchanged; the remaining operations (`list_students`,
`get_student_by_matric`, `login`) take the store and return only a
result, so they cannot touch it at all.  In particular re-running
assignment on a matriculated student goes through the failure branch
(claim C2) and the store component below is the unchanged one. -/
theorem C3_matric_permanent (H : Hasher) (req : CreateStudentRequest)
    (u : String) (st : List Student) (s : Student) (m : String)
    (hs : s ∈ st) (hm : s.matric_number = some m) :
    s ∈ (create_student H req st).2 ∧ s ∈ (assign_matric_number u st).2 := by
  constructor
  · unfold create_student
    cases hh : H.hashFn req.password with
    | error e => exact hs
    | ok hashed =>
      dsimp only
      by_cases hdup : st.any (fun x => x.username == req.username) = true
      · rw [if_pos hdup]
        exact hs
      · rw [if_neg hdup]
        exact List.mem_append_left _ hs
  · unfold assign_matric_number condUpdate
    cases hf : st.find? (matchFree u) with
    | none => exact hs
    | some s' =>
      dsimp only
      have hfalse : matchFree u s = false := by
        simp [matchFree, hm]
      have hself : setMatric u (formatMatric (countMatriculated st + 1)) s = s := by
        simp [setMatric, hfalse]
      exact hself ▸ List.mem_map_of_mem _ hs

/-- Witness for C3: a matriculated `alice` survives, with her number,
both a registration of `bob` and a (failing) re-assignment. -/
theorem C3_matric_permanent_witness :
    (⟨0, "alice", "h", "Alice", some "MAT00001"⟩ : Student)
      ∈ (create_student exampleHasher ⟨"bob", "pw", "Bob"⟩
          [⟨0, "alice", "h", "Alice", some "MAT00001"⟩]).2
    ∧ (⟨0, "alice", "h", "Alice", some "MAT00001"⟩ : Student)
      ∈ (assign_matric_number "alice" [⟨0, "alice", "h", "Alice", some "MAT00001"⟩]).2 :=
  C3_matric_permanent exampleHasher ⟨"bob", "pw", "Bob"⟩ "alice"
    [⟨0, "alice", "h", "Alice", some "MAT00001"⟩]
    ⟨0, "alice", "h", "Alice", some "MAT00001"⟩ "MAT00001" (by decide) rfl

/-- Claim C4: when the requested username already exists (and the
password hashes), registration fails with `Conflict` (the code's
`DuplicateUsername`) and returns the store unchanged; and the
source's error mapping sends exactly the `students_username_key`
database error to `Conflict`, every other persistence fault to
`InternalServerError`. -/
theorem C4_duplicate_username (H : Hasher) (req : CreateStudentRequest)
    (st : List Student) (d : String)
    (hh : H.hashFn req.password = Except.ok d)
    (hdup : st.any (fun s => s.username == req.username) = true) :
    create_student H req st = (Except.error ApiError.Conflict, st)
    ∧ ∀ e : SqlxError, e ≠ SqlxError.Database (some "students_username_key")
        → create_student_err_map e = ApiError.InternalServerError := by
  constructor
  · unfold create_student
    rw [hh]
    dsimp only
    rw [if_pos hdup]
    rfl
  · intro e he
    cases e with
    | Database c =>
      have hc : ¬ (c = some "students_username_key") := fun hc => he (by rw [hc])
      unfold create_student_err_map
      dsimp only
      rw [if_neg hc]
    | Other => rfl

/-- Witness for C4: re-registering `alice` on a store that already
holds an `alice` yields `Conflict` with the store unchanged, and a
non-constraint fault maps to `InternalServerError`. -/
theorem C4_duplicate_username_witness :
    create_student exampleHasher ⟨"alice", "pw2", "Alice B"⟩
        [⟨0, "alice", "bc$pw1", "Alice A", none⟩]
      = (Except.error ApiError.Conflict, [⟨0, "alice", "bc$pw1", "Alice A", none⟩])
    ∧ create_student_err_map SqlxError.Other = ApiError.InternalServerError := by
  have h := C4_duplicate_username exampleHasher ⟨"alice", "pw2", "Alice B"⟩
    [⟨0, "alice", "bc$pw1", "Alice A", none⟩] "bc$pw2" (by decide) (by decide)
  exact ⟨h.1, h.2 SqlxError.Other (by decide)⟩

/-- Claim C5: a login against an absent username and a login against
an existing username whose password does not verify produce the very
same error value `Unauthorized`, so the two failure causes cannot be
told apart from the returned error. -/
theorem C5_login_uniform (H : Hasher) (u p : String) (st : List Student) :
    (st.find? (fun s => s.username == u) = none →
        login H ⟨u, p⟩ st = Except.error ApiError.Unauthorized)
    ∧ (∀ s, st.find? (fun s => s.username == u) = some s →
        H.verifyFn p s.password ≠ Except.ok true →
        login H ⟨u, p⟩ st = Except.error ApiError.Unauthorized) := by
  constructor
  · intro hf
    unfold login
    dsimp only
    rw [hf]
  · intro s hf hv
    unfold login
    dsimp only
    rw [hf]
    dsimp only
    cases hvf : H.verifyFn p s.password with
    | error e => rfl
    | ok b =>
      cases b with
      | true => exact absurd hvf hv
      | false => rfl

/-- Witness for C5: against a store holding `alice` (password digest
of `pw1`), a login as the nonexistent `bob` and a login as `alice`
with the wrong password both return exactly `Unauthorized`. -/
theorem C5_login_uniform_witness :
    login exampleHasher ⟨"bob", "pw1"⟩ [⟨0, "alice", "bc$pw1", "Alice", none⟩]
      = Except.error ApiError.Unauthorized
    ∧ login exampleHasher ⟨"alice", "wrong"⟩ [⟨0, "alice", "bc$pw1", "Alice", none⟩]
      = Except.error ApiError.Unauthorized :=
  ⟨(C5_login_uniform exampleHasher "bob" "pw1" [⟨0, "alice", "bc$pw1", "Alice", none⟩]).1
      (by decide),
   (C5_login_uniform exampleHasher "alice" "wrong" [⟨0, "alice", "bc$pw1", "Alice", none⟩]).2
      ⟨0, "alice", "bc$pw1", "Alice", none⟩ (by decide) (by decide)⟩

/-- Claim C6, counterexample: when hashing fails, `create_student`
does not return the generic internal failure; it returns a
`BadRequest` whose message embeds the hashing error's detail
(`src/main.rs` line 91). -/
theorem C6_hash_fail_counterexample :
    create_student ⟨fun _ => Except.error "boom", fun _ _ => Except.ok false⟩
        ⟨"alice", "pw", "Alice"⟩ []
      = (Except.error (ApiError.BadRequest "Password hashing failed: boom"), [])
    ∧ ApiError.BadRequest "Password hashing failed: boom" ≠ ApiError.InternalServerError :=
  ⟨by decide, by decide⟩

/-- Claim C6 as amended: a hashing failure with detail `e` surfaces
as `BadRequest ("Password hashing failed: " ++ e)` — a client error
carrying the underlying detail, not the opaque internal failure — and
nothing is inserted. -/
theorem C6_hash_fail_amended (H : Hasher) (req : CreateStudentRequest)
    (st : List Student) (e : String)
    (hh : H.hashFn req.password = Except.error e) :
    create_student H req st
      = (Except.error (ApiError.BadRequest ("Password hashing failed: " ++ e)), st) := by
  unfold create_student
  rw [hh]

/-- Witness for the amended C6 at a concrete failing hasher. -/
theorem C6_hash_fail_amended_witness :
    create_student ⟨fun _ => Except.error "cost too high", fun _ _ => Except.ok false⟩
        ⟨"bob", "pw", "Bob"⟩ [⟨0, "alice", "h", "Alice", none⟩]
      = (Except.error (ApiError.BadRequest ("Password hashing failed: " ++ "cost too high")),
         [⟨0, "alice", "h", "Alice", none⟩]) :=
  C6_hash_fail_amended ⟨fun _ => Except.error "cost too high", fun _ _ => Except.ok false⟩
    ⟨"bob", "pw", "Bob"⟩ [⟨0, "alice", "h", "Alice", none⟩] "cost too high" rfl

/-- Claim C7: responses are built exclusively by `Student.to_response`,
which depends only on the public fields `username`, `name` and
`matric_number` — so no operation's output can carry the password
hash or the internal id — and every profile any operation returns is
in its range. -/
theorem C7_profiles_public :
    (∀ s₁ s₂ : Student, s₁.username = s₂.username → s₁.name = s₂.name →
        s₁.matric_number = s₂.matric_number → s₁.to_response = s₂.to_response)
    ∧ (∀ (H : Hasher) req st r st', create_student H req st = (Except.ok r, st') →
        ∃ s : Student, r = s.to_response)
    ∧ (∀ u st r st', assign_matric_number u st = (Except.ok r, st') →
        ∃ s : Student, r = s.to_response)
    ∧ (∀ st rs, list_students st = Except.ok rs → rs = st.map Student.to_response)
    ∧ (∀ m st r, get_student_by_matric m st = Except.ok r →
        ∃ s ∈ st, r = s.to_response)
    ∧ (∀ (H : Hasher) req st r, login H req st = Except.ok r →
        ∃ s ∈ st, r = s.to_response) := by
  refine ⟨?_, ?_, ?_, ?_, ?_, ?_⟩
  · intro s₁ s₂ h1 h2 h3
    simp [Student.to_response, h1, h2, h3]
  · intro H req st r st' h
    unfold create_student at h
    cases hh : H.hashFn req.password with
    | error e => rw [hh] at h; cases h
    | ok hashed =>
      rw [hh] at h
      dsimp only at h
      by_cases hdup : st.any (fun s => s.username == req.username) = true
      · rw [if_pos hdup] at h; cases h
      · rw [if_neg hdup] at h
        simp only [Prod.mk.injEq, Except.ok.injEq] at h
        exact ⟨_, h.1.symm⟩
  · intro u st r st' h
    unfold assign_matric_number condUpdate at h
    cases hf : st.find? (matchFree u) with
    | none => rw [hf] at h; cases h
    | some s =>
      rw [hf] at h
      simp only [Prod.mk.injEq, Except.ok.injEq] at h
      exact ⟨_, h.1.symm⟩
  · intro st rs h
    unfold list_students at h
    simp only [Except.ok.injEq] at h
    exact h.symm
  · intro m st r h
    unfold get_student_by_matric at h
    cases hf : st.find? (fun s => s.matric_number == some m) with
    | none => rw [hf] at h; cases h
    | some s =>
      rw [hf] at h
      simp only [Except.ok.injEq] at h
      exact ⟨s, List.mem_of_find?_eq_some hf, h.symm⟩
  · intro H req st r h
    unfold login at h
    cases hf : st.find? (fun s => s.username == req.username) with
    | none => rw [hf] at h; cases h
    | some s =>
      rw [hf] at h
      dsimp only at h
      cases hv : H.verifyFn req.password s.password with
      | error e => rw [hv] at h; cases h
      | ok b =>
        rw [hv] at h
        cases b with
        | false => cases h
        | true =>
          simp only [if_true, Except.ok.injEq] at h
          exact ⟨s, List.mem_of_find?_eq_some hf, h.symm⟩

/-- Witness for C7: two records agreeing on the public fields but
differing in id and password hash project to the same profile. -/
theorem C7_profiles_public_witness :
    (⟨0, "alice", "hashA", "Alice", none⟩ : Student).to_response
      = (⟨7, "alice", "hashB", "Alice", none⟩ : Student).to_response :=
  C7_profiles_public.1 ⟨0, "alice", "hashA", "Alice", none⟩
    ⟨7, "alice", "hashB", "Alice", none⟩ rfl rfl rfl

/-- Claim C8: a successful registration of `(u, p, n)` followed by a
login with `(u, p)` succeeds and returns the profile `(u, n, none)` —
provided the bcrypt collaborator honours its contract
(`verify(p, hash(p)) = true`). -/
theorem C8_register_login (H : Hasher) (u p n : String) (st : List Student)
    (d : String) (r : StudentResponse) (st' : List Student)
    (hhash : H.hashFn p = Except.ok d)
    (hverify : H.verifyFn p d = Except.ok true)
    (hreg : create_student H ⟨u, p, n⟩ st = (Except.ok r, st')) :
    login H ⟨u, p⟩ st' = Except.ok ⟨u, n, none⟩ ∧ r = ⟨u, n, none⟩ := by
  unfold create_student at hreg
  rw [show (⟨u, p, n⟩ : CreateStudentRequest).password = p from rfl, hhash] at hreg
  dsimp only at hreg
  by_cases hdup : st.any (fun s => s.username == u) = true
  · rw [if_pos hdup] at hreg
    cases hreg
  · rw [if_neg hdup] at hreg
    simp only [Prod.mk.injEq, Except.ok.injEq] at hreg
    obtain ⟨hr, hst⟩ := hreg
    subst hst
    constructor
    · unfold login
      dsimp only
      have hnone : st.find? (fun s => s.username == u) = none := by
        apply List.find?_eq_none.mpr
        intro x hx
        have hfalse : (st.any fun s => s.username == u) = false := by
          cases hb : st.any fun s => s.username == u
          · rfl
          · exact absurd hb hdup
        exact List.any_eq_false.mp hfalse x hx
      rw [find?_append_right _ st _ hnone]
      rw [List.find?_cons_of_pos _ (by simp)]
      dsimp only
      rw [hverify]
      rfl
    · rw [← hr]
      rfl

/-- Witness for C8: register `alice` with password `pw1` on an empty
store, then log in with the same credentials. -/
theorem C8_register_login_witness :
    login exampleHasher ⟨"alice", "pw1"⟩ [⟨0, "alice", "bc$pw1", "Alice A", none⟩]
      = Except.ok ⟨"alice", "Alice A", none⟩ :=
  (C8_register_login exampleHasher "alice" "pw1" "Alice A" [] "bc$pw1"
    ⟨"alice", "Alice A", none⟩ [⟨0, "alice", "bc$pw1", "Alice A", none⟩]
    (by decide) (by decide) (by decide)).1

/-- Claim C9: over any fully successful sequential run of
matriculation assignments, the numeric parts of the returned tokens
strictly increase in assignment order, and the tokens are pairwise
distinct. -/
theorem C9_sequential_tokens (us : List String) (st : List Student)
    (ts : List String) (st' : List Student)
    (h : runAssigns us st = (Except.ok ts, st')) :
    List.Pairwise (fun a b => parseMatric a < parseMatric b) ts
    ∧ List.Pairwise (fun a b => a ≠ b) ts := by
  obtain ⟨hp, -, -⟩ := runAssigns_facts us st ts st' h
  refine ⟨hp, hp.imp ?_⟩
  intro a b hlt he
  rw [he] at hlt
  exact lt_irrefl _ hlt

/-- Witness for C9: assigning to `alice` then `bob` on a fresh store
yields `MAT00001` then `MAT00002`, strictly increasing and distinct. -/
theorem C9_sequential_tokens_witness :
    runAssigns ["alice", "bob"]
        [⟨0, "alice", "h", "Alice", none⟩, ⟨1, "bob", "h", "Bob", none⟩]
      = (Except.ok ["MAT00001", "MAT00002"],
         [⟨0, "alice", "h", "Alice", some "MAT00001"⟩, ⟨1, "bob", "h", "Bob", some "MAT00002"⟩])
    ∧ List.Pairwise (fun a b => parseMatric a < parseMatric b) ["MAT00001", "MAT00002"]
    ∧ List.Pairwise (fun a b => a ≠ b) ["MAT00001", "MAT00002"] := by
  have h := C9_sequential_tokens ["alice", "bob"]
    [⟨0, "alice", "h", "Alice", none⟩, ⟨1, "bob", "h", "Bob", none⟩]
    ["MAT00001", "MAT00002"]
    [⟨0, "alice", "h", "Alice", some "MAT00001"⟩, ⟨1, "bob", "h", "Bob", some "MAT00002"⟩]
    (by decide)
  exact ⟨by decide, h.1, h.2⟩

/-- Claim C10 fails on the code: the allocator's count query and its
conditional UPDATE are two separate store operations, so two
concurrent requests can both run their `SELECT COUNT(*)` before
either UPDATE commits.  On a store where neither `alice` nor `bob`
was ever matriculated, that interleaving (count for `alice`, count
for `bob`, update `alice`, update `bob` — each step atomic at the
store, exactly the granularity of `src/main.rs` lines 120-137) lets
both requests succeed while returning the same token `MAT00001` to
both students: the two concurrent allocations produce equal, not
distinct, tokens, and the store ends up with a duplicated
matriculation number. -/
theorem C10_concurrent_duplicate :
    countMatriculated [⟨0, "alice", "h", "Alice", none⟩, ⟨1, "bob", "h", "Bob", none⟩] = 0
    ∧ condUpdate "alice"
        (formatMatric (countMatriculated
          [⟨0, "alice", "h", "Alice", none⟩, ⟨1, "bob", "h", "Bob", none⟩] + 1))
        [⟨0, "alice", "h", "Alice", none⟩, ⟨1, "bob", "h", "Bob", none⟩]
      = (Except.ok ⟨"alice", "Alice", some "MAT00001"⟩,
         [⟨0, "alice", "h", "Alice", some "MAT00001"⟩, ⟨1, "bob", "h", "Bob", none⟩])
    ∧ condUpdate "bob"
        (formatMatric (countMatriculated
          [⟨0, "alice", "h", "Alice", none⟩, ⟨1, "bob", "h", "Bob", none⟩] + 1))
        [⟨0, "alice", "h", "Alice", some "MAT00001"⟩, ⟨1, "bob", "h", "Bob", none⟩]
      = (Except.ok ⟨"bob", "Bob", some "MAT00001"⟩,
         [⟨0, "alice", "h", "Alice", some "MAT00001"⟩, ⟨1, "bob", "h", "Bob", some "MAT00001"⟩])
    ∧ (⟨"alice", "Alice", some "MAT00001"⟩ : StudentResponse).matric_number
        = (⟨"bob", "Bob", some "MAT00001"⟩ : StudentResponse).matric_number :=
  ⟨by decide, by decide, by decide, rfl⟩

end School
